import Mathlib

/-!
Shallow embedding of the js-gcp-logger core: the `X-Cloud-Trace-Context`
header codec, the identifier generators, the AsyncLocalStorage-backed
request-context store, and the Hono middleware that wires them together.

Pure functions of the source become Lean functions on `String`/`List Char`;
the ambient AsyncLocalStorage is embedded as explicit state passing of the
stack of enclosing scopes; the random source behind `crypto.randomUUID` is
an explicit tape of nibbles; external collaborators (loglayer's `ILogLayer`,
the Web Crypto API, `node:async_hooks`) are modelled from their documented
contracts, since their code is outside this repository.
-/

/-- Values attached to a logger context: the middleware attaches strings and
one boolean (`trace_sampled`). -/
inductive LogValue where
  | str : String → LogValue
  | bool : Bool → LogValue
deriving DecidableEq

/-- Modelled from the spec: the external loglayer `ILogLayer` collaborator,
reduced to the one capability the core uses. A logger is its accumulated
context field set; `withContext` returns a new view with the merged fields
and does not mutate the receiver. -/
structure Logger where
  context : List (String × LogValue)
deriving DecidableEq

/-- Model of `ILogLayer.withContext`: returns an independent logger view
carrying the merged field set. -/
def Logger.withContext (l : Logger) (fields : List (String × LogValue)) : Logger :=
  { context := l.context ++ fields }

/-- Source `TraceContext` (src/context.ts): per-request tracing identity. -/
structure TraceContext where
  traceId : String
  spanId : String
  requestId : String
  traceSampled : Bool
deriving DecidableEq

/-- Source `RequestStore` (src/context.ts): the unit bound into the ambient
context for one request. -/
structure RequestStore where
  trace : TraceContext
  logger : Logger
deriving DecidableEq

/-- Result type of `parseCloudTraceHeader`: `Omit<TraceContext, 'requestId'>`. -/
structure ParsedTrace where
  traceId : String
  spanId : String
  traceSampled : Bool
deriving DecidableEq

/-- Character class `[a-fA-F0-9]` of the source regexes. -/
def isHexChar (c : Char) : Bool :=
  (('a' ≤ c) && (c ≤ 'f')) || (('A' ≤ c) && (c ≤ 'F')) || (('0' ≤ c) && (c ≤ '9'))

/-- Character class `\d` (ASCII digits) of the source regex. -/
def isDigitChar (c : Char) : Bool :=
  ('0' ≤ c) && (c ≤ '9')

/-- Guard shared by both source regexes: the first 32 characters exist and
are all hexadecimal (`^([a-fA-F0-9]{32})`). -/
def hexPrefix32 (cs : List Char) : Bool :=
  ((cs.take 32).length == 32) && (cs.take 32).all isHexChar

/-- Tail of the strict regex after the span digits: end of input, or
`;o=` followed by a single `0` or `1` and then end of input
(`(?:;o=([01]))?$`). Returns the captured flag character when present. -/
def parseTail : List Char → Option (Option Char)
  | [] => some none
  | [';', 'o', '=', f] => if (f == '0') || (f == '1') then some (some f) else none
  | _ => none

/-- Strict regex `^([a-fA-F0-9]{32})\/(\d+)(?:;o=([01]))?$` of
`parseCloudTraceHeader`, as a total matcher returning the three capture
groups (trace id characters, span digits, optional sampling flag). -/
def strictMatch (cs : List Char) : Option (List Char × List Char × Option Char) :=
  if hexPrefix32 cs then
    match cs.drop 32 with
    | '/' :: rest2 =>
      let s := rest2.takeWhile isDigitChar
      if s = [] then none
      else
        match parseTail (rest2.dropWhile isDigitChar) with
        | some f => some (cs.take 32, s, f)
        | none => none
    | _ => none
  else none

/-- JS `String.prototype.toLowerCase`, restricted to the ASCII range the
parser feeds it (hexadecimal characters). -/
def strToLower (s : String) : String :=
  String.mk (s.data.map Char.toLower)

/-- JS `match[3] === '1'` where group 3 may be absent. -/
def sampledOf : Option Char → Bool
  | some '1' => true
  | _ => false

/-- Source `parseCloudTraceHeader` (src/context.ts): strict grammar first,
then the lenient 32-hex-prefix fallback, else absent. A JS falsy check
(`!header`) rejects both the absent value and the empty string. -/
def parseCloudTraceHeader (header : Option String) : Option ParsedTrace :=
  match header with
  | none => none
  | some h =>
    if h.data = [] then none
    else
      match strictMatch h.data with
      | some (hx, s, f) =>
        some ⟨String.mk (hx.map Char.toLower), String.mk s, sampledOf f⟩
      | none =>
        if hexPrefix32 h.data then
          some ⟨String.mk ((h.data.take 32).map Char.toLower), "0", false⟩
        else none

/-- Source `formatTraceField` (src/context.ts). -/
def formatTraceField (projectId traceId : String) : String :=
  "projects/" ++ projectId ++ "/traces/" ++ traceId

/-- Lowercase hexadecimal digit character for a nibble (`0`-`9`, `a`-`f`). -/
def hexChar (n : Fin 16) : Char :=
  Nat.digitChar n

/-- UUID-v4 variant character: `8`, `9`, `a` or `b` chosen by two random
bits. -/
def variantChar (n : Fin 16) : Char :=
  Nat.digitChar (8 + n.val % 4)

/-- Character list of a version-4 UUID in its canonical lowercase
hyphenated textual form, built from a tape of random nibbles. -/
def uuidChars (r : Nat → Fin 16) : List Char :=
  [hexChar (r 0), hexChar (r 1), hexChar (r 2), hexChar (r 3),
   hexChar (r 4), hexChar (r 5), hexChar (r 6), hexChar (r 7), '-',
   hexChar (r 8), hexChar (r 9), hexChar (r 10), hexChar (r 11), '-',
   '4', hexChar (r 12), hexChar (r 13), hexChar (r 14), '-',
   variantChar (r 15), hexChar (r 16), hexChar (r 17), hexChar (r 18), '-',
   hexChar (r 19), hexChar (r 20), hexChar (r 21), hexChar (r 22),
   hexChar (r 23), hexChar (r 24), hexChar (r 25), hexChar (r 26),
   hexChar (r 27), hexChar (r 28), hexChar (r 29), hexChar (r 30)]

/-- Modelled from the spec: `crypto.randomUUID` (Web Crypto API, external to
the repository) returns the canonical lowercase hyphenated UUID-v4 string
for fresh random bits; the randomness is passed as an explicit nibble tape. -/
def randomUUID (r : Nat → Fin 16) : String :=
  String.mk (uuidChars r)

/-- Source `generateRequestId` (src/context.ts): `crypto.randomUUID()`. -/
def generateRequestId (r : Nat → Fin 16) : String :=
  randomUUID r

/-- Source `generateTraceId` (src/context.ts): `crypto.randomUUID()` with
the global hyphen-removing replace applied, i.e. every hyphen removed. -/
def generateTraceId (r : Nat → Fin 16) : String :=
  String.mk ((uuidChars r).filter (fun c => c != '-'))

/-- Lowercase hexadecimal character (`[0-9a-f]`). -/
def isLowerHexChar (c : Char) : Bool :=
  (('0' ≤ c) && (c ≤ '9')) || (('a' ≤ c) && (c ≤ 'f'))

/-- Checker for the spec's trace-id format `^[0-9a-f]{32}$`. -/
def isLowerHex32 (s : String) : Bool :=
  (s.length == 32) && s.data.all isLowerHexChar

/-- Checker for the standard UUID-v4 lowercase textual form
`xxxxxxxx-xxxx-4xxx-Nxxx-xxxxxxxxxxxx` with `N` one of `8`, `9`, `a`, `b`. -/
def isUuidV4 (s : String) : Bool :=
  match s.data with
  | a0 :: a1 :: a2 :: a3 :: a4 :: a5 :: a6 :: a7 :: d0 ::
    b0 :: b1 :: b2 :: b3 :: d1 ::
    v0 :: v1 :: v2 :: v3 :: d2 ::
    w0 :: w1 :: w2 :: w3 :: d3 ::
    c0 :: c1 :: c2 :: c3 :: c4 :: c5 :: c6 :: c7 :: c8 :: c9 :: c10 :: c11 :: [] =>
    ([a0, a1, a2, a3, a4, a5, a6, a7, b0, b1, b2, b3, v1, v2, v3,
      w1, w2, w3, c0, c1, c2, c3, c4, c5, c6, c7, c8, c9, c10, c11].all isLowerHexChar)
      && (d0 == '-') && (d1 == '-') && (d2 == '-') && (d3 == '-')
      && (v0 == '4')
      && ((w0 == '8') || (w0 == '9') || (w0 == 'a') || (w0 == 'b'))
  | _ => false

/-- Modelled from the spec: the ambient context of `node:async_hooks`
`AsyncLocalStorage` (external to the repository), embedded as the explicit
stack of enclosing scope bindings on the current dynamic execution path,
innermost first. -/
abbrev AlsCtx := List RequestStore

/-- Model of `asyncLocalStorage.getStore()`: the innermost enclosing
binding, or absent outside every scope. -/
def getActiveStore (ctx : AlsCtx) : Option RequestStore :=
  ctx.head?

/-- Source `getRequestLogger` (src/context.ts):
`asyncLocalStorage.getStore()?.logger`. -/
def getRequestLogger (ctx : AlsCtx) : Option Logger :=
  (getActiveStore ctx).map (·.logger)

/-- Source `getTraceContext` (src/context.ts):
`asyncLocalStorage.getStore()?.trace`. -/
def getTraceContext (ctx : AlsCtx) : Option TraceContext :=
  (getActiveStore ctx).map (·.trace)

/-- Source `runWithRequestContext` (src/context.ts):
`asyncLocalStorage.run(store, fn)` — `fn` runs with `store` pushed as the
innermost binding for its dynamic extent, and its result (or failure,
when the result type is an `Except`) is returned unchanged. -/
def runWithRequestContext {T : Type} (store : RequestStore) (fn : AlsCtx → T) (ctx : AlsCtx) : T :=
  fn (store :: ctx)

/-- Straight-line client programs over the context store, used to observe
scoping behaviour: read the active trace, read the active logger, sequence
two programs, or run a program inside `runWithRequestContext`. -/
inductive Prog where
  | readTrace : Prog
  | readLogger : Prog
  | seq : Prog → Prog → Prog
  | scope : RequestStore → Prog → Prog

/-- One observation made by a client program. -/
inductive Obs where
  | trace : Option TraceContext → Obs
  | logger : Option Logger → Obs
deriving DecidableEq

/-- Observations a program makes, in order, when run with the given stack
of enclosing scopes; `scope` binds through `runWithRequestContext`. -/
def observations : Prog → AlsCtx → List Obs
  | .readTrace, ctx => [.trace (getTraceContext ctx)]
  | .readLogger, ctx => [.logger (getRequestLogger ctx)]
  | .seq p q, ctx => observations p ctx ++ observations q ctx
  | .scope s p, ctx => runWithRequestContext s (fun inner => observations p inner) ctx

/-- Source `GcpLoggerMiddlewareOptions` (src/middleware/hono/index.ts). -/
structure GcpLoggerMiddlewareOptions where
  logger : Logger
  projectId : Option String

/-- Slice of `process.env` the middleware reads. -/
structure Env where
  GOOGLE_CLOUD_PROJECT : Option String
  GCLOUD_PROJECT : Option String

/-- Everything one middleware invocation produces: the resolved project id,
the `c.set` attribute writes, the `c.header` response-header writes, the
request store it binds, and the outcome of the wrapped pipeline stage. -/
structure MwResult (α : Type) where
  projectId : String
  contextVars : List (String × String)
  responseHeaders : List (String × String)
  store : RequestStore
  outcome : α

/-- Source `gcpLoggerMiddleware` (src/middleware/hono/index.ts), for one
request. Inbound headers are `Option String` (absent when the header is
missing); `rT` and `rR` are the random tapes consumed by `generateTraceId`
and `generateRequestId`; `next` is the next pipeline stage, receiving the
ambient context it runs under; `ctx` is the enclosing scope stack. -/
def gcpLoggerMiddleware {α : Type} (options : GcpLoggerMiddlewareOptions) (env : Env)
    (traceHeader existingRequestId : Option String)
    (rT rR : Nat → Fin 16) (next : AlsCtx → α) (ctx : AlsCtx) : MwResult α :=
  let projectId :=
    options.projectId.getD
      (env.GOOGLE_CLOUD_PROJECT.getD (env.GCLOUD_PROJECT.getD "unknown-project"))
  let parsedTrace := parseCloudTraceHeader traceHeader
  let trace : TraceContext :=
    { traceId := (parsedTrace.map (·.traceId)).getD (generateTraceId rT)
      spanId := (parsedTrace.map (·.spanId)).getD "0"
      requestId := existingRequestId.getD (generateRequestId rR)
      traceSampled := (parsedTrace.map (·.traceSampled)).getD false }
  let contextLogger := options.logger.withContext
    [("logging.googleapis.com/trace", .str (formatTraceField projectId trace.traceId)),
     ("logging.googleapis.com/spanId", .str trace.spanId),
     ("logging.googleapis.com/trace_sampled", .bool trace.traceSampled),
     ("requestId", .str trace.requestId)]
  let store : RequestStore := { trace := trace, logger := contextLogger }
  { projectId := projectId
    contextVars := [("requestId", trace.requestId), ("traceId", trace.traceId)]
    responseHeaders := [("X-Request-ID", trace.requestId)]
    store := store
    outcome := runWithRequestContext store next ctx }

/-- A hexadecimal digit character is never a hyphen. -/
theorem hexChar_ne_dash : ∀ n : Fin 16, (hexChar n != '-') = true := by decide

/-- A variant character is never a hyphen. -/
theorem variantChar_ne_dash : ∀ n : Fin 16, (variantChar n != '-') = true := by decide

/-- Removing the hyphens from the UUID character list leaves exactly the
32 data characters, in order. -/
theorem uuidChars_strip_dashes (r : Nat → Fin 16) :
    (uuidChars r).filter (fun c => c != '-') =
      [hexChar (r 0), hexChar (r 1), hexChar (r 2), hexChar (r 3),
       hexChar (r 4), hexChar (r 5), hexChar (r 6), hexChar (r 7),
       hexChar (r 8), hexChar (r 9), hexChar (r 10), hexChar (r 11),
       '4', hexChar (r 12), hexChar (r 13), hexChar (r 14),
       variantChar (r 15), hexChar (r 16), hexChar (r 17), hexChar (r 18),
       hexChar (r 19), hexChar (r 20), hexChar (r 21), hexChar (r 22),
       hexChar (r 23), hexChar (r 24), hexChar (r 25), hexChar (r 26),
       hexChar (r 27), hexChar (r 28), hexChar (r 29), hexChar (r 30)] := by
  have h4 : (('4' : Char) != '-') = true := by decide
  have hd : (('-' : Char) != '-') = false := by decide
  simp [uuidChars, List.filter_cons, hexChar_ne_dash, variantChar_ne_dash, h4, hd]

/-- Hexadecimal digit characters are lowercase hexadecimal. -/
theorem isLowerHexChar_hexChar : ∀ n : Fin 16, isLowerHexChar (hexChar n) = true := by decide

/-- Variant characters are lowercase hexadecimal. -/
theorem isLowerHexChar_variantChar : ∀ n : Fin 16, isLowerHexChar (variantChar n) = true := by
  decide

/-- The generated trace id always has the spec's format: 32 lowercase
hexadecimal characters. -/
theorem generateTraceId_isLowerHex32 (r : Nat → Fin 16) :
    isLowerHex32 (generateTraceId r) = true := by
  have h4 : isLowerHexChar '4' = true := by decide
  simp [isLowerHex32, generateTraceId, uuidChars_strip_dashes, String.length,
    isLowerHexChar_hexChar, isLowerHexChar_variantChar, h4]

/-- Variant characters are one of `8`, `9`, `a`, `b`. -/
theorem variantChar_cases : ∀ n : Fin 16,
    ((variantChar n == '8') || (variantChar n == '9') ||
      (variantChar n == 'a') || (variantChar n == 'b')) = true := by decide

/-- The generated request id always has the standard UUID-v4 lowercase
textual form. -/
theorem generateRequestId_isUuidV4 (r : Nat → Fin 16) :
    isUuidV4 (generateRequestId r) = true := by
  simp [generateRequestId, randomUUID, isUuidV4, uuidChars,
    isLowerHexChar_hexChar, isLowerHexChar_variantChar, variantChar_cases]

/-- Greedy digit capture over an append: when every character of the first
part satisfies the predicate, `takeWhile` keeps the whole first part. -/
theorem takeWhile_append_of_all (p : Char → Bool) (l₁ l₂ : List Char) (h : l₁.all p = true) :
    (l₁ ++ l₂).takeWhile p = l₁ ++ l₂.takeWhile p := by
  induction l₁ with
  | nil => simp
  | cons a t ih =>
    simp only [List.all_cons, Bool.and_eq_true] at h
    simp [List.takeWhile_cons, h.1, ih h.2]

/-- Companion to `takeWhile_append_of_all` for the remaining input. -/
theorem dropWhile_append_of_all (p : Char → Bool) (l₁ l₂ : List Char) (h : l₁.all p = true) :
    (l₁ ++ l₂).dropWhile p = l₂.dropWhile p := by
  induction l₁ with
  | nil => simp
  | cons a t ih =>
    simp only [List.all_cons, Bool.and_eq_true] at h
    simp [List.dropWhile_cons, h.1, ih h.2]

/-- Evaluation of the strict regex on an input split as a 32-hex trace id,
a slash, a nonempty run of digits and a non-digit-initial tail: it reduces
to the tail grammar `(?:;o=([01]))?$`. -/
theorem strictMatch_split (Hd Sd t : List Char)
    (hH : Hd.length = 32) (hHhex : Hd.all isHexChar = true)
    (hS : Sd ≠ []) (hSdig : Sd.all isDigitChar = true)
    (htw0 : t.takeWhile isDigitChar = []) (hdw0 : t.dropWhile isDigitChar = t) :
    strictMatch (Hd ++ '/' :: (Sd ++ t)) =
      match parseTail t with
      | some f => some (Hd, Sd, f)
      | none => none := by
  have htake : (Hd ++ '/' :: (Sd ++ t)).take 32 = Hd := by
    rw [← hH]; exact List.take_left _ _
  have hdrop : (Hd ++ '/' :: (Sd ++ t)).drop 32 = '/' :: (Sd ++ t) := by
    rw [← hH]; exact List.drop_left _ _
  have hpre : hexPrefix32 (Hd ++ '/' :: (Sd ++ t)) = true := by
    simp [hexPrefix32, htake, hH, hHhex]
  have htw : (Sd ++ t).takeWhile isDigitChar = Sd := by
    rw [takeWhile_append_of_all _ _ _ hSdig, htw0, List.append_nil]
  have hdw : (Sd ++ t).dropWhile isDigitChar = t := by
    rw [dropWhile_append_of_all _ _ _ hSdig, hdw0]
  simp [strictMatch, hpre, hdrop, htw, hdw, htake, hS]

/-- C1: for every request, when the X-Cloud-Trace-Context header parses
(strictly or leniently) the constructed TraceContext takes traceId, spanId
and traceSampled from the parse result; otherwise traceId is the freshly
generated 32-character lowercase hex string, spanId is the literal "0" and
traceSampled is false; requestId is the inbound X-Request-ID header value
when present, otherwise the freshly generated UUID-v4 string. -/
theorem middleware_trace_construction {α : Type}
    (options : GcpLoggerMiddlewareOptions) (env : Env)
    (th rid : Option String) (rT rR : Nat → Fin 16) (next : AlsCtx → α) (ctx : AlsCtx) :
    (((gcpLoggerMiddleware options env th rid rT rR next ctx).store.trace.traceId,
      (gcpLoggerMiddleware options env th rid rT rR next ctx).store.trace.spanId,
      (gcpLoggerMiddleware options env th rid rT rR next ctx).store.trace.traceSampled) =
      match parseCloudTraceHeader th with
      | some p => (p.traceId, p.spanId, p.traceSampled)
      | none => (generateTraceId rT, "0", false)) ∧
    ((gcpLoggerMiddleware options env th rid rT rR next ctx).store.trace.requestId =
      match rid with
      | some v => v
      | none => generateRequestId rR) ∧
    isLowerHex32 (generateTraceId rT) = true ∧
    isUuidV4 (generateRequestId rR) = true := by
  refine ⟨?_, ?_, generateTraceId_isLowerHex32 rT, generateRequestId_isUuidV4 rR⟩
  · cases hp : parseCloudTraceHeader th <;> simp [gcpLoggerMiddleware, hp]
  · cases rid <;> simp [gcpLoggerMiddleware]

/-- C4: parseCloudTraceHeader returns the absent value when the input is
absent or empty, and for every input whose first 32 characters are not all
hexadecimal; it is a total function with no failure path. -/
theorem parse_absent_and_invalid :
    parseCloudTraceHeader none = none ∧
    parseCloudTraceHeader (some "") = none ∧
    ∀ s : String, hexPrefix32 s.data = false → parseCloudTraceHeader (some s) = none := by
  refine ⟨rfl, rfl, fun s hs => ?_⟩
  by_cases hd : s.data = []
  · simp [parseCloudTraceHeader, hd]
  · have hstrict : strictMatch s.data = none := by simp [strictMatch, hs]
    simp [parseCloudTraceHeader, hd, hstrict, hs]

/-- Witness for C4 at the concrete inputs of the spec: a 32-character
non-hex string is rejected. -/
theorem parse_absent_and_invalid_witness :
    hexPrefix32 ("not-hex-chars-here-32-characters" : String).data = false ∧
    parseCloudTraceHeader (some "not-hex-chars-here-32-characters") = none :=
  ⟨by decide, parse_absent_and_invalid.2.2 "not-hex-chars-here-32-characters" (by decide)⟩

/-- C5: getTraceContext and getRequestLogger return the trace and logger
fields of the store bound by the innermost enclosing runWithRequestContext
scope, the absent value outside every scope, an inner scope shadows an
outer one for its dynamic extent, and the outer binding is observed again
after the inner scope exits. -/
theorem context_accessors_scoping (sIn sOut : RequestStore) :
    getTraceContext [] = none ∧
    getRequestLogger [] = none ∧
    (∀ ctx : AlsCtx,
      runWithRequestContext sIn (fun c => (getTraceContext c, getRequestLogger c)) ctx =
        (some sIn.trace, some sIn.logger)) ∧
    observations
        (.scope sOut (.seq .readTrace (.seq (.scope sIn .readTrace) .readTrace))) [] =
      [.trace (some sOut.trace), .trace (some sIn.trace), .trace (some sOut.trace)] := by
  exact ⟨rfl, rfl, fun ctx => rfl, rfl⟩

/-- C7: runWithRequestContext returns exactly what fn produces (including
an error outcome when the result type carries one); the middleware runs the
next stage inside the scope with no surrounding catch, so the stage's
outcome — value or error — is the middleware's outcome unchanged, while
the bound store is observable during the stage's execution. -/
theorem scope_transparency_and_error_propagation {α β : Type}
    (s : RequestStore) (fn : AlsCtx → β) (ctx : AlsCtx)
    (options : GcpLoggerMiddlewareOptions) (env : Env)
    (th rid : Option String) (rT rR : Nat → Fin 16)
    (next : AlsCtx → Except String α) :
    runWithRequestContext s fn ctx = fn (s :: ctx) ∧
    (gcpLoggerMiddleware options env th rid rT rR next ctx).outcome =
      next ((gcpLoggerMiddleware options env th rid rT rR next ctx).store :: ctx) ∧
    getTraceContext ((gcpLoggerMiddleware options env th rid rT rR next ctx).store :: ctx) =
      some (gcpLoggerMiddleware options env th rid rT rR next ctx).store.trace :=
  ⟨rfl, rfl, rfl⟩

/-- C8: the middleware always sets the outbound X-Request-ID response
header to the resolved requestId; an inbound X-Request-ID value is echoed
verbatim, and with no inbound header the freshly generated id is set. -/
theorem response_request_id_header {α : Type}
    (options : GcpLoggerMiddlewareOptions) (env : Env)
    (th rid : Option String) (rT rR : Nat → Fin 16) (next : AlsCtx → α) (ctx : AlsCtx) :
    (gcpLoggerMiddleware options env th rid rT rR next ctx).responseHeaders =
      [("X-Request-ID",
        (gcpLoggerMiddleware options env th rid rT rR next ctx).store.trace.requestId)] ∧
    (∀ id : String,
      (gcpLoggerMiddleware options env th (some id) rT rR next ctx).store.trace.requestId = id) ∧
    (gcpLoggerMiddleware options env th none rT rR next ctx).store.trace.requestId =
      generateRequestId rR :=
  ⟨rfl, fun _ => rfl, rfl⟩

/-- C9: projectId resolves with precedence explicit option, then
GOOGLE_CLOUD_PROJECT, then GCLOUD_PROJECT, then the literal sentinel
"unknown-project"; with nothing resolvable there is no error and the
request still proceeds (the outcome is still exactly the next stage's). -/
theorem project_id_precedence {α : Type} (log : Logger) (p e1 e2 : String)
    (th rid : Option String) (rT rR : Nat → Fin 16) (next : AlsCtx → α) (ctx : AlsCtx) :
    (gcpLoggerMiddleware ⟨log, some p⟩ ⟨some e1, some e2⟩ th rid rT rR next ctx).projectId = p ∧
    (gcpLoggerMiddleware ⟨log, none⟩ ⟨some e1, some e2⟩ th rid rT rR next ctx).projectId = e1 ∧
    (gcpLoggerMiddleware ⟨log, none⟩ ⟨none, some e2⟩ th rid rT rR next ctx).projectId = e2 ∧
    (gcpLoggerMiddleware ⟨log, none⟩ ⟨none, none⟩ th rid rT rR next ctx).projectId =
      "unknown-project" ∧
    (gcpLoggerMiddleware ⟨log, none⟩ ⟨none, none⟩ th rid rT rR next ctx).outcome =
      next ((gcpLoggerMiddleware ⟨log, none⟩ ⟨none, none⟩ th rid rT rR next ctx).store :: ctx) :=
  ⟨rfl, rfl, rfl, rfl, rfl⟩

/-- C10: an inbound X-Request-ID header present with the empty-string value
is adopted verbatim as the resolved requestId and echoed to the outbound
header; no fresh UUID is generated, because only an absent header value
triggers generation. -/
theorem empty_request_id_adopted {α : Type}
    (options : GcpLoggerMiddlewareOptions) (env : Env)
    (th : Option String) (rT rR : Nat → Fin 16) (next : AlsCtx → α) (ctx : AlsCtx) :
    (gcpLoggerMiddleware options env th (some "") rT rR next ctx).store.trace.requestId = "" ∧
    (gcpLoggerMiddleware options env th (some "") rT rR next ctx).responseHeaders =
      [("X-Request-ID", "")] :=
  ⟨rfl, rfl⟩

/-- C2: every header of the strict form H/S;o=F — H exactly 32 hex
characters of either case, S one or more decimal digits, F either 0 or 1 —
parses to lowercase(H), S and the flag F = 1; with the ;o= segment absent,
traceSampled is false. -/
theorem parse_strict_grammar (H S : String) (F : Char)
    (hH : H.data.length = 32) (hHhex : H.data.all isHexChar = true)
    (hS : S.data ≠ []) (hSdig : S.data.all isDigitChar = true)
    (hF : F = '0' ∨ F = '1') :
    parseCloudTraceHeader (some (H ++ "/" ++ S ++ ";o=" ++ String.mk [F])) =
      some ⟨strToLower H, S, F == '1'⟩ ∧
    parseCloudTraceHeader (some (H ++ "/" ++ S)) = some ⟨strToLower H, S, false⟩ := by
  have h1 : ("/" : String).data = ['/'] := rfl
  have h2 : (";o=" : String).data = [';', 'o', '='] := rfl
  have h3 : (String.mk [F]).data = [F] := rfl
  have hcf : isDigitChar ';' = false := by decide
  have hSmk : String.mk S.data = S := rfl
  constructor
  · have hdata : (H ++ "/" ++ S ++ ";o=" ++ String.mk [F]).data
        = H.data ++ '/' :: (S.data ++ [';', 'o', '=', F]) := by
      simp [String.data_append, h1, h2, h3]
    have htw0 : ([';', 'o', '=', F] : List Char).takeWhile isDigitChar = [] := by
      simp [List.takeWhile_cons, hcf]
    have hdw0 : ([';', 'o', '=', F] : List Char).dropWhile isDigitChar
        = [';', 'o', '=', F] := by
      simp [List.dropWhile_cons, hcf]
    have hpt : parseTail [';', 'o', '=', F] = some (some F) := by
      rcases hF with h | h <;> subst h <;> rfl
    have hsm := strictMatch_split H.data S.data [';', 'o', '=', F] hH hHhex hS hSdig htw0 hdw0
    rw [hpt] at hsm
    have hsamp : sampledOf (some F) = (F == '1') := by
      rcases hF with h | h <;> subst h <;> rfl
    simp [parseCloudTraceHeader, hdata, hsm, strToLower, hSmk, hsamp]
  · have hdata : (H ++ "/" ++ S).data = H.data ++ '/' :: S.data := by
      simp [String.data_append, h1]
    have hsm := strictMatch_split H.data S.data [] hH hHhex hS hSdig rfl rfl
    rw [show parseTail [] = some none from rfl] at hsm
    simp only [List.append_nil] at hsm
    simp [parseCloudTraceHeader, hdata, hsm, strToLower, hSmk, sampledOf]

/-- Witness for C2 at the spec's scenario header
105445aa7843bc8bf206b12000100000/1;o=1 and its flagless variant. -/
theorem parse_strict_grammar_witness :
    parseCloudTraceHeader
        (some ("105445aa7843bc8bf206b12000100000" ++ "/" ++ "1" ++ ";o=" ++ String.mk ['1'])) =
      some ⟨strToLower "105445aa7843bc8bf206b12000100000", "1", ('1' == '1')⟩ ∧
    parseCloudTraceHeader (some ("105445aa7843bc8bf206b12000100000" ++ "/" ++ "1")) =
      some ⟨strToLower "105445aa7843bc8bf206b12000100000", "1", false⟩ :=
  parse_strict_grammar "105445aa7843bc8bf206b12000100000" "1" '1'
    (by decide) (by decide) (by decide) (by decide) (Or.inr rfl)

/-- C3: every input whose first 32 characters are hexadecimal but which
fails the strict grammar parses leniently to the lowercase of those 32
characters with spanId "0" and traceSampled false. -/
theorem parse_lenient_fallback (H rest : String)
    (hH : H.data.length = 32) (hHhex : H.data.all isHexChar = true)
    (hns : strictMatch (H ++ rest).data = none) :
    parseCloudTraceHeader (some (H ++ rest)) = some ⟨strToLower H, "0", false⟩ := by
  have hdata : (H ++ rest).data = H.data ++ rest.data := String.data_append H rest
  have htake : (H.data ++ rest.data).take 32 = H.data := by
    rw [← hH]; exact List.take_left _ _
  have hne : ¬ (H.data ++ rest.data = []) := by
    intro hcontra
    have hlen := congrArg List.length hcontra
    simp [List.length_append, hH] at hlen
  have hpre : hexPrefix32 (H.data ++ rest.data) = true := by
    simp [hexPrefix32, htake, hH, hHhex]
  rw [hdata] at hns
  simp [parseCloudTraceHeader, hdata, hne, hns, hpre, strToLower, htake]

/-- Witness for C3: a 32-hex prefix followed by a malformed suffix. -/
theorem parse_lenient_fallback_witness :
    parseCloudTraceHeader (some ("105445aa7843bc8bf206b12000100000" ++ "/abc")) =
      some ⟨strToLower "105445aa7843bc8bf206b12000100000", "0", false⟩ :=
  parse_lenient_fallback "105445aa7843bc8bf206b12000100000" "/abc"
    (by decide) (by decide) (by decide)
